import Mathlib

/-!
Shallow embedding of the dss-plugin-amazon-rekognition repository.

JSON values returned by the Amazon Rekognition API are modelled by `JVal`
(numbers as rationals), dataframe rows by association lists of column name
to cell, and Python code that can raise by `Except String`.  Functions kept
from the source keep their source names; functions whose module is not under
`src/` are modelled from the spec and say so in their doc comment.
-/

namespace Rekog

/-- JSON value as parsed from an Amazon Rekognition API response.
Numbers are modelled as rationals. -/
inductive JVal where
  | null
  | bool (b : Bool)
  | num (q : ℚ)
  | str (s : String)
  | arr (elems : List JVal)
  | obj (fields : List (String × JVal))

/-- First binding for `key` in a parsed JSON object, with a default:
Python's `dict.get(key, default)`. -/
def jobjGet (fields : List (String × JVal)) (key : String) (dflt : JVal) : JVal :=
  match fields with
  | [] => dflt
  | (k, v) :: rest => if k = key then v else jobjGet rest key dflt

/-- Python `value.get(key, default)`: raises `AttributeError` when `value`
is not a dict. -/
def pyGet (v : JVal) (key : String) (dflt : JVal) : Except String JVal :=
  match v with
  | .obj fields => .ok (jobjGet fields key dflt)
  | _ => .error "AttributeError: object has no attribute get"

/-- Total variant of `pyGet`, usable only where the value is already known to
be a dict (a preceding `pyGet` on the same value would have raised otherwise). -/
def pyGetD (v : JVal) (key : String) (dflt : JVal) : JVal :=
  match v with
  | .obj fields => jobjGet fields key dflt
  | _ => dflt

/-- Python `value[key]` on a dict: `KeyError` when missing, `TypeError` when
`value` is not a dict. -/
def pyIndex (v : JVal) (key : String) : Except String JVal :=
  match v with
  | .obj fields =>
    match fields.find? (fun kv => kv.1 = key) with
    | some kv => .ok kv.2
    | none => .error "KeyError"
  | _ => .error "TypeError: object is not subscriptable"

/-- Iterating a Python value: only lists are iterable here. -/
def pyIter (v : JVal) : Except String (List JVal) :=
  match v with
  | .arr xs => .ok xs
  | _ => .error "TypeError: object is not iterable"

/-- Whether a JSON value is a number. -/
def JVal.isNum : JVal → Bool
  | .num _ => true
  | _ => false

/-- Numeric content of a JSON value, defaulting to 0; meaningful only under an
`isNum` guard. -/
def JVal.toQ : JVal → ℚ
  | .num q => q
  | _ => 0

/-- Python `float(x)` on a response field.  Response confidences and geometry
are JSON numbers or absent; numeric strings are not modelled, so every
non-number raises like `float(None)` does. -/
def pyFloat (v : JVal) : Except String ℚ :=
  match v with
  | .num q => .ok q
  | _ => .error "TypeError: float() argument"

/-- Python `v >= q` between a response field and a number: raises `TypeError`
when the field is missing (`None`) or not a number. -/
def pyGe (v : JVal) (q : ℚ) : Except String Bool :=
  match v with
  | .num p => .ok (decide (q ≤ p))
  | _ => .error "TypeError: not supported between instances"

/-- Python `v / d` for a response field: raises `TypeError` when the field is
missing (`None`) or not a number. -/
def pyDiv (v : JVal) (d : ℚ) : Except String ℚ :=
  match v with
  | .num q => .ok (q / d)
  | _ => .error "TypeError: unsupported operand type"

/-- Python `v == s` against a string literal: `False` whenever `v` is not a
string. -/
def pyEqStr (v : JVal) (s : String) : Bool :=
  match v with
  | .str t => t = s
  | _ => false

mutual
/-- Serialization of a JSON value, as `json.dumps` produces for a response
dict (string escaping is not modelled). -/
def jdump : JVal → String
  | .null => "null"
  | .bool true => "true"
  | .bool false => "false"
  | .num q => toString q
  | .str s => "\"" ++ s ++ "\""
  | .arr xs => "[" ++ jdumpElems xs ++ "]"
  | .obj fs => "\x7b" ++ jdumpFields fs ++ "\x7d"

/-- Comma-separated serialization of JSON array elements. -/
def jdumpElems : List JVal → String
  | [] => ""
  | [x] => jdump x
  | x :: y :: rest => jdump x ++ ", " ++ jdumpElems (y :: rest)

/-- Comma-separated serialization of JSON object fields. -/
def jdumpFields : List (String × JVal) → String
  | [] => ""
  | [kv] => "\"" ++ kv.1 ++ "\": " ++ jdump kv.2
  | kv :: kw :: rest => "\"" ++ kv.1 ++ "\": " ++ jdump kv.2 ++ ", " ++ jdumpFields (kw :: rest)
end

end Rekog

namespace Rekog

/-- A dataframe cell.  `raw o` models a string cell holding the text of an
API response: `some v` when that text parses as the JSON value `v`, `none`
when it is not valid JSON (the parse itself happens in `plugin_io_utils`,
outside the embedded code, so its result is part of the modelled state). -/
inductive Cell where
  | val (v : JVal)
  | raw (o : Option JVal)

/-- A dataframe row: ordered association of column name to cell, one entry
per column, insertion-ordered like a Python dict. -/
abbrev Row := List (String × Cell)

/-- Value of a column in a row (`None`-free lookup). -/
def getCell : Row → String → Option Cell
  | [], _ => none
  | (k, v) :: rest, key => if k = key then some v else getCell rest key

/-- Python `row[key] = v`: replace in place when the column exists, append a
new column at the end otherwise. -/
def setCell : Row → String → Cell → Row
  | [], key, v => [(key, v)]
  | (k, w) :: rest, key, v =>
    if k = key then (k, v) :: rest else (k, w) :: setCell rest key v

/-- Column names of a row, in order. -/
def rowKeys (row : Row) : List String := row.map Prod.fst

/-- Sequential column assignments, in order. -/
def writeList (row : Row) : List (String × Cell) → Row
  | [] => row
  | (k, v) :: rest => writeList (setCell row k v) rest


/-- Error-handling policy of the plugin (`ErrorHandling` / `ErrorHandlingEnum`):
log-and-continue or fail. -/
inductive ErrorHandling where
  | log
  | fail
deriving DecidableEq

/-- Modelled from the spec: `safe_json_loads` lives in `plugin_io_utils`, which
is not under `src/` (the formatters only import it).  Per spec section 4.4 a
payload that fails to parse as JSON is treated as an empty result under the
LOG policy and recorded as a failure under FAIL; a parsed payload is returned
as is. -/
def safe_json_loads (cell : Cell) (error_handling : ErrorHandling) : Except String JVal :=
  match cell with
  | .raw (some v) => .ok v
  | _ =>
    match error_handling with
    | .log => .ok (.obj [])
    | .fail => .error "MalformedResponseError"

/-- Python `row[column]` on a row: `KeyError` when the column is missing. -/
def getRowItem (row : Row) (k : String) : Except String Cell :=
  match getCell row k with
  | some c => .ok c
  | none => .error "KeyError"

/-- Textual content of a cell when it holds a string: a raw response cell
holds the serialization of its JSON value; the text of an unparseable raw
cell is not tracked by the model. -/
def cellText : Cell → Option String
  | .val (.str s) => some s
  | .val _ => none
  | .raw (some v) => some (jdump v)
  | .raw none => none

/-- Textual content of a column of a row. -/
def colText (row : Row) (k : String) : Option String :=
  (getCell row k).bind cellText

/-- Candidate name checked at index `i` by `generate_unique` from `dku_aws.py`:
the bare name first, then `name_1`, `name_2`, ... -/
def guCandidate (name : String) (i : Nat) : String :=
  if i = 0 then name else name ++ "_" ++ toString i

/-- Loop of `generate_unique` from `dku_aws.py`.  The source iterates
`for j in range(1, 1000)`, testing `new_name` and then assigning
`name + "_" + str(j)`; the candidate tested at iteration `j` is
`guCandidate name (j - 1)` and `fuel = 1000 - j` iterations remain, so the
names tested are exactly `guCandidate name 0 .. guCandidate name 998` and the
loop falls through to the raise after 999 failed tests. -/
def generate_unique_go (name : String) (existing : List String) : Nat → Nat → Except String String
  | _, 0 => .error "Failed to generated a unique name"
  | i, fuel + 1 =>
    if guCandidate name i ∈ existing then generate_unique_go name existing (i + 1) fuel
    else .ok (guCandidate name i)

/-- Column-name disambiguation `generate_unique(name, existing_names)` from
`dku_aws.py`. -/
def generate_unique (name : String) (existing : List String) : Except String String :=
  generate_unique_go name existing 0 999

/-- Modelled from the spec: the three-argument `generate_unique(name,
existing_names, prefix)` of `plugin_io_utils`, which is not under `src/`.
Per spec section 3 the registry tries `prefix_role` and then appends `_1`,
`_2`, ... up to a bounded number of attempts; the bounded loop of
`dku_aws.generate_unique` realizes exactly that rule. -/
def generate_unique_pfx (name : String) (existing : List String) (pfx : String) :
    Except String String :=
  generate_unique (pfx ++ "_" ++ name) existing

/-- Names of the three columns added by the parallel API-calling phase. -/
structure ApiColumnNames where
  response : String
  error_message : String
  error_type : String

/-- Modelled from the spec: `build_unique_column_names` of `plugin_io_utils`,
which is not under `src/`.  Per spec section 3 the registry maps the roles
response / error_message / error_type to collision-free names computed once
against the existing schema. -/
def build_unique_column_names (existing : List String) (pfx : String) :
    Except String ApiColumnNames := do
  let r ← generate_unique_pfx "response" existing pfx
  let m ← generate_unique_pfx "error_message" existing pfx
  let t ← generate_unique_pfx "error_type" existing pfx
  pure ⟨r, m, t⟩

/-- Outcome of one API call made for one row: either the response dict that
the call function serializes with `json.dumps`, or the caught exception's
message and type name. -/
inductive CallOutcome where
  | success (fields : List (String × JVal))
  | failure (message : String) (errorType : String)

/-- Modelled from the spec: `api_parallelizer` lives in `python-lib`
outside `src/` (only its unit test is present).  Per spec sections 3 and 4.3,
every row is augmented with exactly one of {response populated, error
columns populated}, in the original row order; under LOG_AND_CONTINUE a
failing row gets an empty response and populated error columns, and a
successful row gets the serialized response and empty error columns. -/
def api_parallelizer (rows : List Row) (call : Row → CallOutcome)
    (cols : ApiColumnNames) : List Row :=
  rows.map fun row =>
    match call row with
    | .success fields =>
      setCell (setCell (setCell row cols.response (.raw (some (.obj fields))))
        cols.error_message (.val (.str "")))
        cols.error_type (.val (.str ""))
    | .failure msg ty =>
      setCell (setCell (setCell row cols.response (.val (.str "")))
        cols.error_message (.val (.str msg)))
        cols.error_type (.val (.str ty))

/-- Column names used by the parallelizer unit test (prefix `test_api`). -/
def testCols : ApiColumnNames :=
  ⟨"test_api_response", "test_api_error_message", "test_api_error_type"⟩

/-- Input row of the unit test for the success case. -/
def testRowSuccess : Row := [("test_case", .val (.str "SUCCESS"))]

/-- Input row of the unit test for the API-failure case. -/
def testRowFailure : Row := [("test_case", .val (.str "API_FAILURE"))]

/-- Call function mirroring `call_test_api` of the unit test: an
`API_FAILURE` row raises `Boto3Error` (whose message is empty), any other row
returns `{"result": "Great success"}`. -/
def testCall (row : Row) : CallOutcome :=
  match getCell row "test_case" with
  | some (.val (.str "API_FAILURE")) => .failure "" "boto3.exceptions.Boto3Error"
  | _ => .success [("result", .str "Great success")]

/-- Augmented output row for the success case of the unit test. -/
def testSuccessOut : Row :=
  [("test_case", .val (.str "SUCCESS")),
   ("test_api_response", .raw (some (.obj [("result", .str "Great success")]))),
   ("test_api_error_message", .val (.str "")),
   ("test_api_error_type", .val (.str ""))]

/-- Augmented output row for the API-failure case of the unit test. -/
def testFailureOut : Row :=
  [("test_case", .val (.str "API_FAILURE")),
   ("test_api_response", .val (.str "")),
   ("test_api_error_message", .val (.str "")),
   ("test_api_error_type", .val (.str "boto3.exceptions.Boto3Error"))]


/-- Stable descending insertion for `sorted(..., reverse=True)`: an element
originally before the list goes in front of every element with a key not
above its own. -/
def insertDesc (key : JVal → ℚ) (x : JVal) : List JVal → List JVal
  | [] => [x]
  | y :: ys => if key y ≤ key x then x :: y :: ys else y :: insertDesc key x ys

/-- Stable descending sort by a numeric key (equal to Python's stable sort on
all-numeric keys). -/
def sortDescBy (key : JVal → ℚ) (xs : List JVal) : List JVal :=
  xs.foldr (insertDesc key) []

/-- Confidence key of a label, meaningful when the label is a dict with a
numeric confidence. -/
def confKey (l : JVal) : ℚ := (pyGetD l "Confidence" .null).toQ

/-- Python `sorted(labels, key=lambda x: x.get("Confidence"), reverse=True)`
from `ObjectDetectionLabelingAPIFormatter.format_row`.  `sorted` computes the
key of every element first (raising `AttributeError` on a non-dict element);
comparisons happen only when at least two elements are present, and every
element takes part in some comparison, so a missing (`None`) confidence then
raises `TypeError`.  Rekognition confidences are numbers when present, so
only numeric keys are modelled as comparable. -/
def pySortedByConfDesc (labels : List JVal) : Except String (List JVal) := do
  let keys ← labels.mapM (fun l => pyGet l "Confidence" .null)
  if 2 ≤ labels.length then
    if keys.all JVal.isNum then
      pure (sortDescBy confKey labels)
    else Except.error "TypeError: not supported between instances"
  else
    pure labels

/-- Column names computed once by `ObjectDetectionLabelingAPIFormatter.__init__`
against the input schema. -/
structure ODColumns where
  response : String
  label_list : String
  label_name : List String
  label_score : List String

/-- Construction of the object-detection formatter's column names: the
response column from the generic formatter's `build_unique_column_names`,
the label columns from `generate_unique` against `input_df.keys()`. -/
def od_build_columns (input_keys : List String) (num_objects : Nat) (pfx : String) :
    Except String ODColumns := do
  let api ← build_unique_column_names input_keys pfx
  let ll ← generate_unique_pfx "label_list" input_keys pfx
  let names ← (List.range num_objects).mapM
    (fun n => generate_unique_pfx ("label_" ++ toString (n + 1) ++ "_name") input_keys pfx)
  let scores ← (List.range num_objects).mapM
    (fun n => generate_unique_pfx ("label_" ++ toString (n + 1) ++ "_score") input_keys pfx)
  pure ⟨api.response, ll, names, scores⟩

/-- Writes of the `for n in range(self.num_objects)` loop of
`ObjectDetectionLabelingAPIFormatter.format_row`: while a label exists at
position `n`, its name (default `""`) and raw confidence (default `""`);
past the end of the labels, an empty name and a `None` score.  `labels` is
consumed one element per iteration, matching the `labels[n]` indexing; its
elements are dicts here, since the sort's key extraction has raised
otherwise. -/
def odPairWrites : List String → List String → List JVal → List (String × Cell)
  | nc :: names, sc :: scores, l :: ls =>
    (nc, .val (pyGetD l "Name" (.str ""))) ::
    (sc, .val (pyGetD l "Confidence" (.str ""))) ::
    odPairWrites names scores ls
  | nc :: names, sc :: scores, [] =>
    (nc, .val (.str "")) :: (sc, .val .null) :: odPairWrites names scores []
  | _, _, _ => []

/-- Column names written by the loop, independent of the labels. -/
def odPairCols : List String → List String → List String
  | nc :: names, sc :: scores => nc :: sc :: odPairCols names scores
  | _, _ => []

/-- All column names written by `od_format_row`. -/
def odWrittenCols (cols : ODColumns) : List String :=
  cols.label_list :: odPairCols cols.label_name cols.label_score

/-- Row transformation of `ObjectDetectionLabelingAPIFormatter.format_row`. -/
def od_format_row (cols : ODColumns) (error_handling : ErrorHandling) (row : Row) :
    Except String Row := do
  let rawCell ← getRowItem row cols.response
  let response ← safe_json_loads rawCell error_handling
  let labelsV ← pyGet response "Labels" (.arr [])
  let labelsL ← pyIter labelsV
  let labels ← pySortedByConfDesc labelsL
  pure (writeList row
    ((cols.label_list, .val (.arr (labels.map (fun l => pyGetD l "Name" .null)))) ::
      odPairWrites cols.label_name cols.label_score labels))

/-- One call to `draw_bounding_box_pil_image`: normalized coordinates plus the
caption text (the empty string when no caption is drawn). -/
structure DrawnBox where
  ymin : ℚ
  xmin : ℚ
  ymax : ℚ
  xmax : ℚ
  text : String

/-- Column names computed once by `TextDetectionAPIFormatter.__init__`. -/
structure TDColumns where
  response : String
  text_list : String
  text_concat : String

/-- Construction of the text-detection formatter's column names. -/
def td_build_columns (input_keys : List String) (pfx : String) :
    Except String TDColumns := do
  let api ← build_unique_column_names input_keys pfx
  let l ← generate_unique_pfx "detections_list" input_keys pfx
  let c ← generate_unique_pfx "detections_concat" input_keys pfx
  pure ⟨api.response, l, c⟩

/-- Filter of `TextDetectionAPIFormatter.format_row`:
`t.get("Confidence") >= self.minimum_score and t.get("ParentId") is None`,
with Python's short-circuit evaluation. -/
def tdKeep (minimum_score : ℚ) (t : JVal) : Except String Bool := do
  let conf ← pyGet t "Confidence" .null
  let ge ← pyGe conf minimum_score
  if ge then
    let p ← pyGet t "ParentId" .null
    pure (match p with | .null => true | _ => false)
  else
    pure false

/-- List comprehension with a fallible condition, evaluated left to right. -/
def pyFilter (p : JVal → Except String Bool) : List JVal → Except String (List JVal)
  | [] => .ok []
  | x :: xs => do
    let b ← p x
    let rest ← pyFilter p xs
    pure (if b then x :: rest else rest)

/-- Python `" ".join(xs)`: every element must be a string. -/
def pyJoinSpace (xs : List JVal) : Except String String := do
  let strs ← xs.mapM (fun v =>
    match v with
    | .str s => Except.ok s
    | _ => Except.error "TypeError: sequence item expected str instance")
  pure (String.intercalate " " strs)

/-- Row transformation of `TextDetectionAPIFormatter.format_row`.  The source
first sets both output columns to `""` and then overwrites them when the
filtered list is non-empty; each branch's write sequence spells that out. -/
def td_format_row (cols : TDColumns) (minimum_score : ℚ)
    (error_handling : ErrorHandling) (row : Row) : Except String Row := do
  let rawCell ← getRowItem row cols.response
  let response ← safe_json_loads rawCell error_handling
  let detsV ← pyGet response "TextDetections" (.arr [])
  let dets ← pyIter detsV
  let kept ← pyFilter (tdKeep minimum_score) dets
  if kept.length ≠ 0 then do
    let joined ← pyJoinSpace (kept.map (fun t => pyGetD t "DetectedText" (.str "")))
    pure (writeList row
      [(cols.text_list, .val (.str "")), (cols.text_concat, .val (.str "")),
       (cols.text_list, .val (.arr (kept.map (fun t => pyGetD t "DetectedText" (.str ""))))),
       (cols.text_concat, .val (.str joined))])
  else
    pure (writeList row
      [(cols.text_list, .val (.str "")), (cols.text_concat, .val (.str ""))])

/-- Bounding-box comprehension of `TextDetectionAPIFormatter.format_image`:
every fragment at or above the threshold contributes its
`Geometry.BoundingBox`, with no `ParentId` filter. -/
def td_collect_boxes (minimum_score : ℚ) : List JVal → Except String (List JVal)
  | [] => .ok []
  | t :: ts => do
    let conf ← pyGet t "Confidence" .null
    let ge ← pyGe conf minimum_score
    if ge then do
      let g ← pyGet t "Geometry" (.obj [])
      let b ← pyGet g "BoundingBox" (.obj [])
      let rest ← td_collect_boxes minimum_score ts
      pure (b :: rest)
    else
      td_collect_boxes minimum_score ts

/-- One box of the text-detection annotation loop: coordinates from the
bounding-box dict, no caption. -/
def td_box_draw (b : JVal) : Except String DrawnBox := do
  let xmin ← pyFloat (← pyGet b "Left" .null)
  let ymin ← pyFloat (← pyGet b "Top" .null)
  let w ← pyFloat (← pyGet b "Width" .null)
  let h ← pyFloat (← pyGet b "Height" .null)
  pure ⟨ymin, xmin, ymin + h, xmin + w, ""⟩

/-- Image pass of `TextDetectionAPIFormatter.format_image`, returning the
boxes drawn in order. -/
def td_format_image (minimum_score : ℚ) (response : JVal) :
    Except String (List DrawnBox) := do
  let detsV ← pyGet response "TextDetections" (.arr [])
  let dets ← pyIter detsV
  let boxes ← td_collect_boxes minimum_score dets
  boxes.mapM td_box_draw

/-- One entry of the instance comprehension of
`ObjectDetectionLabelingAPIFormatter.format_image`. -/
structure ODInstance where
  name : JVal
  bbox : JVal
  confidence : ℚ

/-- Python `str(x)` as used in caption formatting (label names are strings in
practice). -/
def pyStr (v : JVal) : String :=
  match v with
  | .str s => s
  | v => jdump v

/-- Python `"{:.1%}".format(q)`: percentage with one decimal place (CPython's
round-half-even at the last digit is approximated by round-half-up, a
difference no claim exercises). -/
def formatPercent1 (q : ℚ) : String :=
  let m : ℤ := round (q * 1000)
  toString (m / 10) ++ "." ++ toString (m.natAbs % 10) ++ "%"

/-- Instance comprehension of
`ObjectDetectionLabelingAPIFormatter.format_image`: one entry per instance of
each label, with the confidence divided by 100 — raising `TypeError` when an
instance has no confidence. -/
def od_collect_instances : List JVal → Except String (List ODInstance)
  | [] => .ok []
  | label :: rest => do
    let instsV ← pyGet label "Instances" (.arr [])
    let insts ← pyIter instsV
    let items ← insts.mapM (fun inst => do
      let nameV ← pyGet label "Name" (.str "")
      let bb ← pyGet inst "BoundingBox" (.obj [])
      let confV ← pyGet inst "Confidence" .null
      let conf ← pyDiv confV 100
      pure (⟨nameV, bb, conf⟩ : ODInstance))
    let others ← od_collect_instances rest
    pure (items ++ others)

/-- Stable ascending insertion by confidence. -/
def insertAscInst (x : ODInstance) : List ODInstance → List ODInstance
  | [] => [x]
  | y :: ys =>
    if x.confidence ≤ y.confidence then x :: y :: ys else y :: insertAscInst x ys

/-- Python `sorted(bounding_box_list_dict, key=lambda x: x.get("confidence"))`:
the keys are always numbers by construction, so the sort is total; stable
ascending, lowest confidence drawn first. -/
def sortAscInst (xs : List ODInstance) : List ODInstance :=
  xs.foldr insertAscInst []

/-- One box of the object-detection annotation loop, with its caption
`"{label} - {confidence%} "`. -/
def od_box_draw (i : ODInstance) : Except String DrawnBox := do
  let text := pyStr i.name ++ " - " ++ formatPercent1 i.confidence ++ " "
  let xmin ← pyFloat (← pyGet i.bbox "Left" .null)
  let ymin ← pyFloat (← pyGet i.bbox "Top" .null)
  let w ← pyFloat (← pyGet i.bbox "Width" .null)
  let h ← pyFloat (← pyGet i.bbox "Height" .null)
  pure ⟨ymin, xmin, ymin + h, xmin + w, text⟩

/-- Image pass of `ObjectDetectionLabelingAPIFormatter.format_image`. -/
def od_format_image (response : JVal) : Except String (List DrawnBox) := do
  let labelsV ← pyGet response "Labels" (.arr [])
  let labels ← pyIter labelsV
  let insts ← od_collect_instances labels
  (sortAscInst insts).mapM od_box_draw

/-- The `EntityTypeEnum` members of
`amazon_rekognition_api_formatting.py`. -/
inductive EntityTypeEnum where
  | COMMERCIAL_ITEM
  | DATE
  | EVENT
  | LOCATION
  | ORGANIZATION
  | OTHER
  | PERSON
  | QUANTITY
  | TITLE
deriving DecidableEq

/-- Python `e.name` for an `EntityTypeEnum` member. -/
def entityTypeName : EntityTypeEnum → String
  | .COMMERCIAL_ITEM => "COMMERCIAL_ITEM"
  | .DATE => "DATE"
  | .EVENT => "EVENT"
  | .LOCATION => "LOCATION"
  | .ORGANIZATION => "ORGANIZATION"
  | .OTHER => "OTHER"
  | .PERSON => "PERSON"
  | .QUANTITY => "QUANTITY"
  | .TITLE => "TITLE"

/-- Stable ascending insertion for `sorted` on strings. -/
def insertAscStr (x : String) : List String → List String
  | [] => [x]
  | y :: ys => if x ≤ y then x :: y :: ys else y :: insertAscStr x ys

/-- Python `sorted` on a list of strings. -/
def sortStrings (xs : List String) : List String :=
  xs.foldr insertAscStr []

/-- Python `n.lower()` for an `EntityTypeEnum` member name, tabulated over
the nine member names that can occur. -/
def pyLower (s : String) : String :=
  match s with
  | "COMMERCIAL_ITEM" => "commercial_item"
  | "DATE" => "date"
  | "EVENT" => "event"
  | "LOCATION" => "location"
  | "ORGANIZATION" => "organization"
  | "OTHER" => "other"
  | "PERSON" => "person"
  | "QUANTITY" => "quantity"
  | "TITLE" => "title"
  | s => s.toLower

/-- Filter of `UnsafeContentAPIFormatter.format_row`:
`e.get("Type", "") == n and float(e.get("Score", 0)) >= self.minimum_score`
with short-circuit evaluation. -/
def entityFilter (n : String) (minimum_score : ℚ) (e : JVal) :
    Except String Bool := do
  let ty ← pyGet e "Type" (.str "")
  if pyEqStr ty n then do
    let sc ← pyGet e "Score" (.num 0)
    let q ← pyFloat sc
    pure (decide (minimum_score ≤ q))
  else
    pure false

/-- Row transformation of `UnsafeContentAPIFormatter.format_row` (the
entity-extraction formatter at lines 301-315 of
`amazon_rekognition_api_formatting.py`).  The added column name for each
selected entity type is recomputed from `row.keys()` on every call through
`generate_unique`. -/
def uc_format_row (entity_types : List EntityTypeEnum) (minimum_score : ℚ)
    (pfx : String) (respCol : String) (error_handling : ErrorHandling)
    (row : Row) : Except String Row := do
  let rawCell ← getRowItem row respCol
  let response ← safe_json_loads rawCell error_handling
  let entitiesV ← pyGet response "Entities" (.arr [])
  let entities ← pyIter entitiesV
  let selected := sortStrings (entity_types.map entityTypeName)
  selected.foldlM (fun row n => do
    let col ← generate_unique_pfx ("entity_type_" ++ pyLower n) (rowKeys row) pfx
    let filt ← pyFilter (entityFilter n minimum_score) entities
    let texts ← filt.mapM (fun e => pyGet e "Text" .null)
    let row := setCell row col (.val (.arr texts))
    if texts.length = 0 then
      pure (setCell row col (.val (.str "")))
    else
      pure row) row

/-- Output row of `detect_adult_content`. -/
structure AdultContentRow where
  adult_score : ℚ
  suggestive_score : ℚ
  violence_score : ℚ
  is_adult_content : Bool
  is_suggestive_content : Bool
  is_violent_content : Bool

/-- Python `m[k1] == lit or m[k2] == lit` with short-circuit evaluation and
`KeyError` on a missing key. -/
def pyOrEqStr (m : JVal) (k1 k2 lit : String) : Except String Bool := do
  let v1 ← pyIndex m k1
  if pyEqStr v1 lit then
    pure true
  else do
    let v2 ← pyIndex m k2
    pure (pyEqStr v2 lit)

/-- Python `max(score, m["Confidence"])`. -/
def pyMaxConf (score : ℚ) (m : JVal) : Except String ℚ := do
  let c ← pyFloat (← pyIndex m "Confidence")
  pure (max score c)

/-- Accumulator step of `detect_adult_content` for one moderation label:
the three `if` statements over (adult, suggestive, violence) scores. -/
def adultStep (acc : ℚ × ℚ × ℚ) (m : JVal) : Except String (ℚ × ℚ × ℚ) := do
  let (a, s, v) := acc
  let ma ← pyOrEqStr m "Name" "ParentName" "Explicit Nudity"
  let a ← if ma then pyMaxConf a m else pure a
  let ms ← pyOrEqStr m "Name" "ParentName" "Suggestive"
  let s ← if ms then pyMaxConf s m else pure s
  let mv ← pyOrEqStr m "Name" "ParentName" "Violence"
  let v ← if mv then pyMaxConf v m else pure v
  pure (a, s, v)

/-- Embedding of `detect_adult_content` from `dku_amazon_rekognition.py`
(duplicated at the bottom of `amazon_rekognition_api_formatting.py`), applied
to the already-received `detect_moderation_labels` response.  Line 43 of the
source computes `is_violent_content` from `suggestive_score`; the embedding
reproduces that line as written. -/
def detect_adult_content (response : JVal) : Except String AdultContentRow := do
  let labelsV ← pyGet response "ModerationLabels" (.arr [])
  let labels ← pyIter labelsV
  let (a, s, v) ← labels.foldlM adultStep ((0 : ℚ), (0 : ℚ), (0 : ℚ))
  pure { adult_score := a, suggestive_score := s, violence_score := v,
         is_adult_content := decide (mkRat 1 2 < a),
         is_suggestive_content := decide (mkRat 1 2 < s),
         is_violent_content := decide (mkRat 1 2 < s) }

/-- The three recipes routed through `PluginParamsLoader`. -/
inductive RecipeID where
  | object_detection_labeling
  | text_detection
  | unsafe_content_moderation
deriving DecidableEq

/-- Modelled from the spec: `UnsafeContentCategoryLevelEnum` is imported from
a module version not under `src/`; per spec section 4.4 the selector is TOP or
SECOND. -/
inductive CategoryLevel where
  | top
  | second
deriving DecidableEq

/-- Recipe configuration as read from `get_recipe_config()`: the fields
consumed by `validate_recipe_params`.  Category lists are modelled by their
member names (the enum classes live in a module version not under `src/`);
`error_handling` is modelled as an already-valid enum member. -/
structure RecipeConfig where
  minimum_score : Option JVal
  error_handling : ErrorHandling
  orientation_correction : Bool
  num_objects : Option JVal
  category_level : CategoryLevel
  content_categories_top_level : List String
  content_categories_second_level : List String

/-- Validated recipe parameters produced by `validate_recipe_params`. -/
structure RecipeParams where
  minimum_score : ℤ
  error_handling : ErrorHandling
  orientation_correction : Bool
  num_objects : Option ℚ
  unsafe_content_category_level : Option CategoryLevel
  unsafe_content_categories_top_level : List String
  unsafe_content_categories_second_level : List String

/-- Python `int(x)` on a number: truncation toward zero. -/
def pyInt (q : ℚ) : ℤ := if 0 ≤ q then ⌊q⌋ else -⌊-q⌋

/-- Python `isinstance(x, (int, float))` filtering as applied to a config
value: numbers pass, and so do booleans (`bool` subclasses `int`), coerced to
0 or 1; anything else (including a missing value) fails. -/
def pyAsNumber : Option JVal → Option ℚ
  | some (.num q) => some q
  | some (.bool b) => some (if b then 1 else 0)
  | _ => none

/-- Embedding of `PluginParamsLoader.validate_recipe_params`. -/
def validate_recipe_params (recipe_id : RecipeID) (cfg : RecipeConfig) :
    Except String RecipeParams := do
  let q ← match pyAsNumber cfg.minimum_score with
    | some q => Except.ok q
    | none => Except.error "Invalid minimum score parameter"
  let ms : ℤ := pyInt (q * 100)
  if ms < 0 ∨ 100 < ms then
    Except.error "Minimum confidence score must be between 0 and 1"
  else do
    let nObj ← if recipe_id = RecipeID.object_detection_labeling then
        match pyAsNumber cfg.num_objects with
        | some n =>
          if n < 1 then Except.error "Number of labels must be greater than 1"
          else Except.ok (some n)
        | none => Except.error "Invalid number of labels parameter"
      else
        pure none
    if recipe_id = RecipeID.unsafe_content_moderation then
      if cfg.content_categories_top_level.length = 0 ∨
          cfg.content_categories_second_level.length = 0 then
        Except.error "Choose at least one unsafe content category"
      else
        pure { minimum_score := ms, error_handling := cfg.error_handling,
               orientation_correction := cfg.orientation_correction,
               num_objects := nObj,
               unsafe_content_category_level := some cfg.category_level,
               unsafe_content_categories_top_level := cfg.content_categories_top_level,
               unsafe_content_categories_second_level := cfg.content_categories_second_level }
    else
      pure { minimum_score := ms, error_handling := cfg.error_handling,
             orientation_correction := cfg.orientation_correction,
             num_objects := nObj,
             unsafe_content_category_level := none,
             unsafe_content_categories_top_level := [],
             unsafe_content_categories_second_level := [] }

/-- Moderation-recipe configuration with a valid minimum score and the given
category selection. -/
def cfgModeration (level : CategoryLevel) (top second : List String) : RecipeConfig :=
  { minimum_score := some (.num (1/2)), error_handling := .log,
    orientation_correction := false, num_objects := none,
    category_level := level, content_categories_top_level := top,
    content_categories_second_level := second }

/-- Text-detection-recipe configuration with the given raw minimum-score
config value (possibly missing or non-numeric). -/
def cfgScore (v : Option JVal) : RecipeConfig :=
  { minimum_score := v, error_handling := .log,
    orientation_correction := false, num_objects := none,
    category_level := .top, content_categories_top_level := ["Violence"],
    content_categories_second_level := ["Graphic Violence"] }

/-- Candidate family `name, name_1, ..., name_k`: the taken names of the
disambiguation scenario. -/
def guFamily (name : String) (k : Nat) : List String :=
  (List.range (k + 1)).map (guCandidate name)


/-- Object-detection column names for the input schema `["input_path"]` with
the default prefix `object_api` and `num_objects = 3`. -/
def odExampleCols : ODColumns :=
  ⟨"object_api_response", "object_api_label_list",
   ["object_api_label_1_name", "object_api_label_2_name", "object_api_label_3_name"],
   ["object_api_label_1_score", "object_api_label_2_score", "object_api_label_3_score"]⟩

/-- Response with two labels, Cat at 91.2 and Dog at 55.0. -/
def odExampleResponse : JVal :=
  .obj [("Labels", .arr
    [.obj [("Name", .str "Cat"), ("Confidence", .num (mkRat 456 5))],
     .obj [("Name", .str "Dog"), ("Confidence", .num (55 : ℚ))]])]

/-- Input row carrying `odExampleResponse`. -/
def odExampleRow : Row :=
  [("input_path", .val (.str "img1.jpg")),
   ("object_api_response", .raw (some odExampleResponse))]

/-- Row produced by `od_format_row` on `odExampleRow`. -/
def odExampleOut : Row :=
  [("input_path", .val (.str "img1.jpg")),
   ("object_api_response", .raw (some odExampleResponse)),
   ("object_api_label_list", .val (.arr [.str "Cat", .str "Dog"])),
   ("object_api_label_1_name", .val (.str "Cat")),
   ("object_api_label_1_score", .val (.num (mkRat 456 5))),
   ("object_api_label_2_name", .val (.str "Dog")),
   ("object_api_label_2_score", .val (.num (55 : ℚ))),
   ("object_api_label_3_name", .val (.str "")),
   ("object_api_label_3_score", .val .null)]

/-- Text-detection column names for the input schema `["input_path"]` with
the default prefix `text_api`. -/
def tdExampleCols : TDColumns :=
  ⟨"text_api_response", "text_api_detections_list", "text_api_detections_concat"⟩

/-- Response with a top-level fragment `Hi` at 99 and a child fragment `H`
at 40. -/
def tdExampleResponse : JVal :=
  .obj [("TextDetections", .arr
    [.obj [("DetectedText", .str "Hi"), ("Confidence", .num 99), ("ParentId", .null)],
     .obj [("DetectedText", .str "H"), ("Confidence", .num 40), ("ParentId", .str "1")]])]

/-- Input row carrying `tdExampleResponse`. -/
def tdExampleRow : Row :=
  [("input_path", .val (.str "img1.jpg")),
   ("text_api_response", .raw (some tdExampleResponse))]

/-- Row produced by `td_format_row` on `tdExampleRow` at threshold 50. -/
def tdExampleOut : Row :=
  [("input_path", .val (.str "img1.jpg")),
   ("text_api_response", .raw (some tdExampleResponse)),
   ("text_api_detections_list", .val (.arr [.str "Hi"])),
   ("text_api_detections_concat", .val (.str "Hi"))]

/-- A child fragment (`ParentId` present) above the threshold, with a full
geometry. -/
def tdChildFragment : JVal :=
  .obj [("DetectedText", .str "H"), ("Confidence", .num 99), ("ParentId", .str "1"),
        ("Geometry", .obj [("BoundingBox",
          .obj [("Left", .num (mkRat 1 10)), ("Top", .num (mkRat 1 5)),
                ("Width", .num (mkRat 3 10)), ("Height", .num (mkRat 2 5))])])]

/-- Response containing only `tdChildFragment`. -/
def tdChildResponse : JVal := .obj [("TextDetections", .arr [tdChildFragment])]

/-- Input row carrying `tdChildResponse`. -/
def tdChildRow : Row :=
  [("input_path", .val (.str "img1.jpg")),
   ("text_api_response", .raw (some tdChildResponse))]

/-- Whether a fragment is a dict with a numeric confidence. -/
def fragConfOk (t : JVal) : Bool :=
  match t with
  | .obj fs => (jobjGet fs "Confidence" .null).isNum
  | _ => false

/-- Confidence of a fragment, defaulting to 0. -/
def confQD (t : JVal) : ℚ := (pyGetD t "Confidence" .null).toQ

/-- Whether a fragment's geometry is drawable: its `Geometry` (default `{}`)
is a dict, the `BoundingBox` inside (default `{}`) is a dict, and the four
coordinates are numbers. -/
def fragGeomOk (t : JVal) : Bool :=
  match pyGetD t "Geometry" (.obj []) with
  | .obj gfs =>
    match jobjGet gfs "BoundingBox" (.obj []) with
    | .obj bfs =>
      (jobjGet bfs "Left" .null).isNum && (jobjGet bfs "Top" .null).isNum &&
      (jobjGet bfs "Width" .null).isNum && (jobjGet bfs "Height" .null).isNum
    | _ => false
  | _ => false

/-- Box drawn for a fragment with drawable geometry. -/
def boxOfD (t : JVal) : DrawnBox :=
  let b := pyGetD (pyGetD t "Geometry" (.obj [])) "BoundingBox" (.obj [])
  { ymin := (pyGetD b "Top" .null).toQ, xmin := (pyGetD b "Left" .null).toQ,
    ymax := (pyGetD b "Top" .null).toQ + (pyGetD b "Height" .null).toQ,
    xmax := (pyGetD b "Left" .null).toQ + (pyGetD b "Width" .null).toQ,
    text := "" }

/-- Response with two labels where the first lacks a confidence. -/
def odBadSortResponse : JVal :=
  .obj [("Labels", .arr
    [.obj [("Name", .str "Cat")],
     .obj [("Name", .str "Dog"), ("Confidence", .num 55)]])]

/-- Input row carrying `odBadSortResponse`. -/
def odBadSortRow : Row :=
  [("object_api_response", .raw (some odBadSortResponse))]

/-- Response with one instance that lacks a confidence. -/
def odBadInstanceResponse : JVal :=
  .obj [("Labels", .arr
    [.obj [("Name", .str "Cat"), ("Instances", .arr
      [.obj [("BoundingBox", .obj
        [("Left", .num (mkRat 1 10)), ("Top", .num (mkRat 1 10)),
         ("Width", .num (mkRat 1 10)), ("Height", .num (mkRat 1 10))])]])]])]

/-- Moderation response with one label: Weapons under parent Violence at
confidence 80. -/
def moderationExampleResponse : JVal :=
  .obj [("ModerationLabels", .arr
    [.obj [("Name", .str "Weapons"), ("ParentName", .str "Violence"),
           ("Confidence", .num 80)]])]

/-- Input row for the entity formatter, carrying one PERSON entity. -/
def ucExampleRow0 : Row :=
  [("input_path", .val (.str "img1.jpg")),
   ("entity_api_response", .raw (some (.obj [("Entities", .arr
     [.obj [("Text", .str "Joe"), ("Type", .str "PERSON"), ("Score", .num 90)]])])))]

/-- Result of the first application of the entity formatter. -/
def ucExampleRow1 : Row :=
  ucExampleRow0 ++ [("entity_api_entity_type_person", .val (.arr [.str "Joe"]))]

/-- Result of the second application: a new `_1` column appears. -/
def ucExampleRow2 : Row :=
  ucExampleRow1 ++ [("entity_api_entity_type_person_1", .val (.arr [.str "Joe"]))]


/-- Row whose response text failed to parse as JSON. -/
def rawNoneRow : Row := [("object_api_response", .raw none)]

/-- Row produced by `td_format_row` on `tdChildRow` at threshold 50: no
fragment survives the tabular filter. -/
def tdChildOut : Row :=
  [("input_path", .val (.str "img1.jpg")),
   ("text_api_response", .raw (some tdChildResponse)),
   ("text_api_detections_list", .val (.str "")),
   ("text_api_detections_concat", .val (.str ""))]

/-- A top-level fragment above the threshold, with a full geometry. -/
def tdTopFragment : JVal :=
  .obj [("DetectedText", .str "Hi"), ("Confidence", .num 99),
        ("Geometry", .obj [("BoundingBox",
          .obj [("Left", .num (mkRat 1 2)), ("Top", .num (mkRat 1 4)),
                ("Width", .num (mkRat 1 8)), ("Height", .num (mkRat 1 16))])])]

-- DEFS_END

/-! ### Theorems -/

theorem getCell_setCell_same (r : Row) (k : String) (v : Cell) :
    getCell (setCell r k v) k = some v := by
  induction r with
  | nil => simp [setCell, getCell]
  | cons hd tl ih =>
    obtain ⟨k', w⟩ := hd
    by_cases h : k' = k <;> simp [setCell, getCell, h, ih]

theorem getCell_setCell_ne (r : Row) {k k' : String} (v : Cell) (h : k' ≠ k) :
    getCell (setCell r k v) k' = getCell r k' := by
  induction r with
  | nil => simp [setCell, getCell, Ne.symm h]
  | cons hd tl ih =>
    obtain ⟨k'', w⟩ := hd
    by_cases h2 : k'' = k
    · subst h2
      simp [setCell, getCell, Ne.symm h]
    · simp [setCell, getCell, h2]
      by_cases h3 : k'' = k' <;> simp [h3, ih]

theorem getCell_eq_none_of_not_mem (r : Row) {k : String} (h : k ∉ rowKeys r) :
    getCell r k = none := by
  induction r with
  | nil => rfl
  | cons hd tl ih =>
    obtain ⟨k', v⟩ := hd
    simp only [rowKeys, List.map_cons, List.mem_cons] at h
    push_neg at h
    simp [getCell, Ne.symm h.1, ih h.2]

theorem rowKeys_setCell_of_mem (r : Row) {k : String} (v : Cell)
    (h : k ∈ rowKeys r) : rowKeys (setCell r k v) = rowKeys r := by
  induction r with
  | nil => simp [rowKeys] at h
  | cons hd tl ih =>
    obtain ⟨k', w⟩ := hd
    by_cases h2 : k' = k
    · simp [setCell, rowKeys, h2]
    · simp only [rowKeys, List.map_cons, List.mem_cons] at h
      rcases h with h | h
      · exact absurd h.symm h2
      · simp only [setCell, h2, if_false, rowKeys, List.map_cons]
        rw [show List.map Prod.fst (setCell tl k v) = rowKeys (setCell tl k v) from rfl,
          ih h]
        rfl

theorem rowKeys_setCell_of_not_mem (r : Row) {k : String} (v : Cell)
    (h : k ∉ rowKeys r) : rowKeys (setCell r k v) = rowKeys r ++ [k] := by
  induction r with
  | nil => rfl
  | cons hd tl ih =>
    obtain ⟨k', w⟩ := hd
    simp only [rowKeys, List.map_cons, List.mem_cons] at h
    push_neg at h
    simp only [setCell, Ne.symm h.1, if_false, rowKeys, List.map_cons]
    rw [show List.map Prod.fst (setCell tl k v) = rowKeys (setCell tl k v) from rfl,
      ih h.2]
    rfl

theorem rowKeys_subset_setCell (r : Row) (k : String) (v : Cell) :
    rowKeys r ⊆ rowKeys (setCell r k v) := by
  by_cases h : k ∈ rowKeys r
  · rw [rowKeys_setCell_of_mem r v h]
    exact List.Subset.refl _
  · rw [rowKeys_setCell_of_not_mem r v h]
    exact List.subset_append_left _ _


theorem mem_rowKeys_setCell (r : Row) (k : String) (v : Cell) :
    k ∈ rowKeys (setCell r k v) := by
  by_cases h : k ∈ rowKeys r
  · rw [rowKeys_setCell_of_mem r v h]; exact h
  · rw [rowKeys_setCell_of_not_mem r v h]; simp

theorem nodup_rowKeys_setCell (r : Row) (k : String) (v : Cell)
    (h : (rowKeys r).Nodup) : (rowKeys (setCell r k v)).Nodup := by
  by_cases h2 : k ∈ rowKeys r
  · rwa [rowKeys_setCell_of_mem r v h2]
  · rw [rowKeys_setCell_of_not_mem r v h2]
    simp [List.nodup_append, h, h2]

/-- Rows with the same duplicate-free column list and the same lookups are
equal. -/
theorem row_ext (r r' : Row) (hn : (rowKeys r).Nodup)
    (hk : rowKeys r = rowKeys r') (hv : ∀ k, getCell r k = getCell r' k) :
    r = r' := by
  induction r generalizing r' with
  | nil =>
    cases r' with
    | nil => rfl
    | cons hd tl => simp [rowKeys] at hk
  | cons hd tl ih =>
    obtain ⟨k, v⟩ := hd
    cases r' with
    | nil => simp [rowKeys] at hk
    | cons hd' tl' =>
      obtain ⟨k', v'⟩ := hd'
      simp only [rowKeys, List.map_cons, List.cons.injEq] at hk
      obtain ⟨hkk, htl⟩ := hk
      subst hkk
      simp only [rowKeys, List.map_cons, List.nodup_cons] at hn
      have hvv : v = v' := by
        have := hv k
        simpa [getCell] using this
      subst hvv
      have htail : tl = tl' := by
        refine ih tl' hn.2 htl (fun key => ?_)
        by_cases hkey : key = k
        · subst hkey
          rw [getCell_eq_none_of_not_mem tl hn.1,
            getCell_eq_none_of_not_mem tl' (by simpa [rowKeys, ← htl] using hn.1)]
        · have := hv key
          simpa [getCell, Ne.symm hkey] using this
      rw [htail]

/-- Value of the last assignment to `k` in a write sequence, when any. -/
def lastWrite (ps : List (String × Cell)) (k : String) : Option Cell :=
  match ps with
  | [] => none
  | (k', v) :: rest =>
    match lastWrite rest k with
    | some w => some w
    | none => if k' = k then some v else none

theorem getCell_writeList (ps : List (String × Cell)) (s : Row) (k : String) :
    getCell (writeList s ps) k =
      match lastWrite ps k with
      | some v => some v
      | none => getCell s k := by
  induction ps generalizing s with
  | nil => rfl
  | cons hd tl ih =>
    obtain ⟨k', v⟩ := hd
    simp only [writeList, lastWrite]
    rw [ih]
    cases lastWrite tl k with
    | some w => rfl
    | none =>
      by_cases h : k' = k
      · subst h; simp [getCell_setCell_same]
      · simp [h, getCell_setCell_ne _ _ (Ne.symm h)]

theorem lastWrite_eq_none (ps : List (String × Cell)) {k : String}
    (h : k ∉ ps.map Prod.fst) : lastWrite ps k = none := by
  induction ps with
  | nil => rfl
  | cons hd tl ih =>
    obtain ⟨k', v⟩ := hd
    simp only [List.map_cons, List.mem_cons] at h
    push_neg at h
    simp [lastWrite, ih h.2, (Ne.symm h.1 : k' ≠ k)]

theorem getCell_writeList_not_mem (ps : List (String × Cell)) (r : Row)
    {k : String} (h : k ∉ ps.map Prod.fst) :
    getCell (writeList r ps) k = getCell r k := by
  rw [getCell_writeList, lastWrite_eq_none ps h]

theorem rowKeys_subset_writeList (ps : List (String × Cell)) (s : Row) :
    rowKeys s ⊆ rowKeys (writeList s ps) := by
  induction ps generalizing s with
  | nil => exact fun _ h => h
  | cons hd tl ih =>
    obtain ⟨k, v⟩ := hd
    exact fun key hkey =>
      ih (setCell s k v) (rowKeys_subset_setCell s k v hkey)

theorem mem_rowKeys_writeList (ps : List (String × Cell)) (s : Row)
    {k : String} (h : k ∈ ps.map Prod.fst) :
    k ∈ rowKeys (writeList s ps) := by
  induction ps generalizing s with
  | nil => simp at h
  | cons hd tl ih =>
    obtain ⟨k', v⟩ := hd
    simp only [List.map_cons, List.mem_cons] at h
    by_cases h2 : k ∈ tl.map Prod.fst
    · exact ih (setCell s k' v) h2
    · rcases h with h | h
      · subst h
        exact rowKeys_subset_writeList tl _ (mem_rowKeys_setCell s k v)
      · exact absurd h h2

theorem rowKeys_writeList_of_mem (ps : List (String × Cell)) (s : Row)
    (h : ∀ key ∈ ps.map Prod.fst, key ∈ rowKeys s) :
    rowKeys (writeList s ps) = rowKeys s := by
  induction ps generalizing s with
  | nil => rfl
  | cons hd tl ih =>
    obtain ⟨k, v⟩ := hd
    simp only [writeList]
    have hk : k ∈ rowKeys s := h k (by simp)
    rw [ih (setCell s k v) (fun key hkey =>
      rowKeys_subset_setCell s k v (h key (by simp [hkey]))),
      rowKeys_setCell_of_mem s v hk]

theorem nodup_rowKeys_writeList (ps : List (String × Cell)) (s : Row)
    (h : (rowKeys s).Nodup) : (rowKeys (writeList s ps)).Nodup := by
  induction ps generalizing s with
  | nil => exact h
  | cons hd tl ih =>
    obtain ⟨k, v⟩ := hd
    exact ih (setCell s k v) (nodup_rowKeys_setCell s k v h)

/-- Replaying the same write sequence on its own output changes nothing:
the second pass only replaces columns that are already present, with the
values they already hold. -/
theorem writeList_replay (ps : List (String × Cell)) (r : Row)
    (hr : (rowKeys r).Nodup) :
    writeList (writeList r ps) ps = writeList r ps := by
  refine row_ext _ _ (nodup_rowKeys_writeList ps _ (nodup_rowKeys_writeList ps r hr)) ?_ ?_
  · exact rowKeys_writeList_of_mem ps (writeList r ps)
      (fun key hkey => mem_rowKeys_writeList ps r hkey)
  · intro k
    rw [getCell_writeList, getCell_writeList]
    cases h : lastWrite ps k with
    | some v => rfl
    | none => rfl



theorem jdump_obj_ne_empty (fs : List (String × JVal)) : jdump (.obj fs) ≠ "" := by
  intro h
  have hlen := congrArg String.length h
  have h1 : ("\x7b" : String).length = 1 := rfl
  simp [jdump, String.length_append, h1] at hlen

theorem generate_unique_go_ok (name : String) (existing : List String) :
    ∀ (fuel i m : Nat), i ≤ m → m < i + fuel →
      (∀ j, i ≤ j → j < m → guCandidate name j ∈ existing) →
      guCandidate name m ∉ existing →
      generate_unique_go name existing i fuel = .ok (guCandidate name m) := by
  intro fuel
  induction fuel with
  | zero => intro i m him hmlt _ _; omega
  | succ fuel ih =>
    intro i m him hmlt htaken hfree
    rw [generate_unique_go]
    by_cases hmem : guCandidate name i ∈ existing
    · have hne : i ≠ m := fun h => hfree (h ▸ hmem)
      rw [if_pos hmem]
      exact ih (i + 1) m (by omega) (by omega)
        (fun j hj1 hj2 => htaken j (by omega) hj2) hfree
    · have heq : i = m := by
        by_contra hne
        exact hmem (htaken i le_rfl (by omega))
      rw [if_neg hmem, heq]

theorem generate_unique_go_error (name : String) (existing : List String) :
    ∀ (fuel i : Nat),
      (∀ j, i ≤ j → j < i + fuel → guCandidate name j ∈ existing) →
      generate_unique_go name existing i fuel =
        .error "Failed to generated a unique name" := by
  intro fuel
  induction fuel with
  | zero => intro i _; rfl
  | succ fuel ih =>
    intro i htaken
    rw [generate_unique_go, if_pos (htaken i le_rfl (by omega))]
    exact ih (i + 1) (fun j hj1 hj2 => htaken j (by omega) (by omega))

theorem generate_unique_go_ok_not_mem (name : String) (existing : List String) :
    ∀ (fuel i : Nat) (r : String),
      generate_unique_go name existing i fuel = .ok r → r ∉ existing := by
  intro fuel
  induction fuel with
  | zero => intro i r h; exact absurd h (by simp [generate_unique_go])
  | succ fuel ih =>
    intro i r h
    rw [generate_unique_go] at h
    by_cases hmem : guCandidate name i ∈ existing
    · rw [if_pos hmem] at h
      exact ih (i + 1) r h
    · rw [if_neg hmem] at h
      injection h with h
      exact h ▸ hmem

/-- C1: after the parallel API-calling phase, every output row records exactly
one outcome: either a non-empty response with both error columns empty, or an
empty response with a non-empty error-type column; never both a response and
an error. -/
theorem api_parallelizer_exactly_one_outcome
    (rows : List Row) (call : Row → CallOutcome) (cols : ApiColumnNames)
    (hty : ∀ row m t, call row = .failure m t → t ≠ "")
    (h1 : cols.response ≠ cols.error_message)
    (h2 : cols.response ≠ cols.error_type)
    (h3 : cols.error_message ≠ cols.error_type) :
    ∀ r ∈ api_parallelizer rows call cols,
      ((∃ s, colText r cols.response = some s ∧ s ≠ "") ∧
        colText r cols.error_message = some "" ∧
        colText r cols.error_type = some "") ∨
      (colText r cols.response = some "" ∧
        ∃ t, colText r cols.error_type = some t ∧ t ≠ "") := by
  intro r hr
  rw [api_parallelizer, List.mem_map] at hr
  obtain ⟨row, _, rfl⟩ := hr
  cases hc : call row with
  | success fields =>
    left
    refine ⟨⟨jdump (.obj fields), ?_, jdump_obj_ne_empty fields⟩, ?_, ?_⟩
    · rw [colText, getCell_setCell_ne _ _ h2, getCell_setCell_ne _ _ h1,
        getCell_setCell_same]
      rfl
    · rw [colText, getCell_setCell_ne _ _ h3, getCell_setCell_same]
      rfl
    · rw [colText, getCell_setCell_same]
      rfl
  | failure msg ty =>
    right
    refine ⟨?_, ty, ?_, hty row msg ty hc⟩
    · rw [colText, getCell_setCell_ne _ _ h2, getCell_setCell_ne _ _ h1,
        getCell_setCell_same]
      rfl
    · rw [colText, getCell_setCell_same]
      rfl

/-- Witness for C1: the failure row of the unit-test scenario has an empty
response and a non-empty error type. -/
theorem api_parallelizer_exactly_one_outcome_witness :
    ((∃ s, colText testFailureOut testCols.response = some s ∧ s ≠ "") ∧
      colText testFailureOut testCols.error_message = some "" ∧
      colText testFailureOut testCols.error_type = some "") ∨
    (colText testFailureOut testCols.response = some "" ∧
      ∃ t, colText testFailureOut testCols.error_type = some t ∧ t ≠ "") := by
  refine api_parallelizer_exactly_one_outcome
    [testRowSuccess, testRowFailure] testCall testCols ?_
    (by decide) (by decide) (by decide) testFailureOut ?_
  · intro row m t h
    unfold testCall at h
    split at h
    · injection h with hm ht
      subst ht
      decide
    · exact absurd h (by simp)
  · have heq : api_parallelizer [testRowSuccess, testRowFailure] testCall testCols
        = [testSuccessOut, testFailureOut] := rfl
    rw [heq]
    exact List.mem_cons_of_mem _ (List.mem_cons_self _ _)


theorem except_bind_ok {α β : Type} (a : α) (f : α → Except String β) :
    (Except.ok a >>= f) = f a := rfl

theorem except_bind_error {α β : Type} (e : String) (f : α → Except String β) :
    ((Except.error e : Except String α) >>= f) = .error e := rfl

theorem getRowItem_ok_iff (row : Row) (k : String) (c : Cell) :
    getRowItem row k = .ok c ↔ getCell row k = some c := by
  cases h : getCell row k <;> simp [getRowItem, h]

/-- C2 (amended): for the object-detection formatter with `num_objects = 3`
and labels Cat at 91.2 and Dog at 55.0, `format_row` sorts descending by
confidence and emits the pairs ("Cat", 91.2), ("Dog", 55.0), ("", None) —
the padded score cell is `None`, not the empty string — and the label-list
column equals ["Cat", "Dog"]. -/
theorem od_format_row_example :
    od_format_row odExampleCols .log odExampleRow = .ok odExampleOut ∧
    getCell odExampleOut "object_api_label_list" =
      some (.val (.arr [.str "Cat", .str "Dog"])) ∧
    getCell odExampleOut "object_api_label_1_name" = some (.val (.str "Cat")) ∧
    getCell odExampleOut "object_api_label_1_score" = some (.val (.num (mkRat 456 5))) ∧
    getCell odExampleOut "object_api_label_2_name" = some (.val (.str "Dog")) ∧
    getCell odExampleOut "object_api_label_2_score" = some (.val (.num (55 : ℚ))) ∧
    getCell odExampleOut "object_api_label_3_name" = some (.val (.str "")) ∧
    getCell odExampleOut "object_api_label_3_score" = some (.val .null) :=
  ⟨rfl, rfl, rfl, rfl, rfl, rfl, rfl, rfl⟩

/-- C2 (counterexample): at the claim's own input the third score cell is
`None`, not the empty string claimed by the pair ("", ""). -/
theorem od_format_row_example_pad_is_none :
    od_format_row odExampleCols .log odExampleRow = .ok odExampleOut ∧
    getCell odExampleOut "object_api_label_3_score" = some (.val .null) ∧
    Cell.val .null ≠ Cell.val (.str "") :=
  ⟨rfl, rfl, by simp⟩

/-- C3: evaluating `detect_adult_content` at the failing input. The label
Weapons under parent Violence at confidence 80 drives `violence_score` to 80,
yet `is_violent_content` is `False`, because line 43 of
`dku_amazon_rekognition.py` computes it from `suggestive_score`. -/
theorem detect_adult_content_weapons_violence :
    detect_adult_content moderationExampleResponse =
      .ok { adult_score := 0, suggestive_score := 0, violence_score := 80,
            is_adult_content := false, is_suggestive_content := false,
            is_violent_content := false } := rfl

/-- C4: for the text-detection formatter at threshold 50, only the top-level
fragment `Hi` at confidence 99 survives; the list column is ["Hi"] and the
concatenated column is "Hi". -/
theorem td_format_row_example :
    td_format_row tdExampleCols 50 .log tdExampleRow = .ok tdExampleOut ∧
    getCell tdExampleOut "text_api_detections_list" =
      some (.val (.arr [.str "Hi"])) ∧
    getCell tdExampleOut "text_api_detections_concat" =
      some (.val (.str "Hi")) :=
  ⟨rfl, rfl, rfl⟩

/-- C5 (counterexample): a child fragment (`ParentId` present) above the
threshold does not survive the tabular filter, yet `format_image` draws a box
for it. -/
theorem td_format_image_draws_child_fragment :
    td_format_image 50 tdChildResponse =
      .ok [⟨mkRat 1 5, mkRat 1 10, mkRat 1 5 + mkRat 2 5, mkRat 1 10 + mkRat 3 10, ""⟩] ∧
    td_format_row tdExampleCols 50 .log tdChildRow = .ok tdChildOut ∧
    getCell tdChildOut "text_api_detections_list" = some (.val (.str "")) :=
  ⟨rfl, rfl, rfl⟩

/-- C6 (counterexample): with exactly name, name_1, ..., name_998 taken (999
collisions, fewer than 1000), `generate_unique` raises instead of returning
name_999: the loop tests only the 999 candidates up to name_998. -/
theorem generate_unique_raises_at_998 :
    generate_unique "name" (guFamily "name" 998) =
      .error "Failed to generated a unique name" := by
  rw [generate_unique]
  refine generate_unique_go_error "name" _ 999 0 ?_
  intro j _ hj2
  rw [guFamily]
  exact List.mem_map.mpr ⟨j, List.mem_range.mpr (by omega), rfl⟩

/-- C6 (amended): `generate_unique` returns a name not in the existing set,
and when the candidates up to index `m - 1` are all taken and candidate `m`
is free for some `m ≤ 998` (name itself for `m = 0`, `name_m` otherwise), it
returns candidate `m` without throwing; at 999 or more collisions it
raises. -/
theorem generate_unique_disambiguates (name : String) (existing : List String) :
    (∀ r, generate_unique name existing = .ok r → r ∉ existing) ∧
    (∀ m, m ≤ 998 → (∀ j, j < m → guCandidate name j ∈ existing) →
      guCandidate name m ∉ existing →
      generate_unique name existing = .ok (guCandidate name m)) := by
  constructor
  · intro r h
    exact generate_unique_go_ok_not_mem name existing 999 0 r h
  · intro m hm htaken hfree
    rw [generate_unique]
    exact generate_unique_go_ok name existing 999 0 m (Nat.zero_le m) (by omega)
      (fun j _ hj => htaken j hj) hfree

/-- Witness for C6: with name and name_1 taken, the returned name is
name_2. -/
theorem generate_unique_disambiguates_witness :
    generate_unique "name" ["name", "name_1"] = .ok "name_2" := by
  have h := (generate_unique_disambiguates "name" ["name", "name_1"]).2 2
    (by omega) (by decide) (by decide)
  exact h

/-- C10: the object-detection formatter is not total over well-formed JSON
responses: a response with a label lacking a confidence makes `format_row`
raise inside the descending sort, and a response with an instance lacking a
confidence makes `format_image` raise in the division by 100 — although a
payload that fails to parse as JSON at all never makes `format_row` throw
under the LOG policy. -/
theorem od_formatting_not_total :
    od_format_row odExampleCols .log odBadSortRow =
      .error "TypeError: not supported between instances" ∧
    od_format_image odBadInstanceResponse =
      .error "TypeError: unsupported operand type" ∧
    ∀ (cols : ODColumns) (row : Row),
      getCell row cols.response = some (.raw none) →
      ∃ r, od_format_row cols .log row = .ok r := by
  refine ⟨rfl, rfl, ?_⟩
  intro cols row h
  refine ⟨writeList row ((cols.label_list, .val (.arr [])) ::
    odPairWrites cols.label_name cols.label_score []), ?_⟩
  have hraw : getRowItem row cols.response = .ok (.raw none) :=
    (getRowItem_ok_iff row cols.response _).mpr h
  simp only [od_format_row, hraw, except_bind_ok]
  rfl

/-- Witness for C10: a concrete row with an unparseable response is formatted
without raising. -/
theorem od_formatting_not_total_witness :
    ∃ r, od_format_row odExampleCols .log rawNoneRow = .ok r :=
  od_formatting_not_total.2.2 odExampleCols rawNoneRow rfl


/-- C7 (counterexample): with the TOP level selected, a non-empty top-level
list and an empty second-level list, validation raises although the claim
says it succeeds when the chosen level's list is non-empty. -/
theorem validate_moderation_raises_on_empty_other_level :
    validate_recipe_params .unsafe_content_moderation
      (cfgModeration .top ["Violence"] []) =
      .error "Choose at least one unsafe content category" := by
  have hms : pyInt ((1/2 : ℚ) * 100) = 50 := by norm_num [pyInt]
  simp only [validate_recipe_params, cfgModeration, pyAsNumber, except_bind_ok, hms,
    (by decide : RecipeID.unsafe_content_moderation ≠ RecipeID.object_detection_labeling)]
  norm_num

/-- C7 (amended): for the moderation recipe with otherwise-valid parameters,
validation succeeds iff BOTH category lists are non-empty — lines 149-153
test the two lists unconditionally, regardless of the selected level. -/
theorem validate_moderation_iff (level : CategoryLevel) (top second : List String) :
    ((validate_recipe_params .unsafe_content_moderation
        (cfgModeration level top second)).isOk = true ↔
      top ≠ [] ∧ second ≠ []) := by
  have hms : pyInt ((1/2 : ℚ) * 100) = 50 := by norm_num [pyInt]
  rcases top with _ | ⟨t, ts⟩ <;> rcases second with _ | ⟨u, us⟩ <;>
    simp only [validate_recipe_params, cfgModeration, pyAsNumber, except_bind_ok, hms,
      (by decide : RecipeID.unsafe_content_moderation ≠ RecipeID.object_detection_labeling)] <;>
    norm_num [Except.isOk, Except.toBool, pure, Except.pure, except_bind_ok]
  simp

/-- C8 (counterexample): minimum_score = -0.005 is numeric and lies outside
[0, 1], yet validation succeeds: int(-0.005 * 100) = int(-0.5) truncates
toward zero to 0, which passes the 0..100 range check. -/
theorem validate_score_passes_negative :
    (validate_recipe_params .text_detection (cfgScore (some (.num (-(1/200)))))).isOk = true ∧
    (-(1/200) : ℚ) < 0 := by
  constructor
  · have hpy : pyInt ((-(1/200) : ℚ) * 100) = 0 := by
      have h : ((-(1/200) : ℚ) * 100) = -(1/2) := by norm_num
      rw [h, pyInt, if_neg (by norm_num)]
      norm_num
    simp only [validate_recipe_params, cfgScore, pyAsNumber, except_bind_ok, hpy,
      (by decide : RecipeID.text_detection ≠ RecipeID.object_detection_labeling),
      (by decide : RecipeID.text_detection ≠ RecipeID.unsafe_content_moderation)]
    norm_num [Except.isOk, Except.toBool, pure, Except.pure, except_bind_ok]
  · norm_num

/-- C8 (amended): validation of the minimum confidence score raises iff the
configured value is not a number (missing, or of a non-numeric type) or its
100-scaled truncation toward zero falls outside [0, 100]; on success the
stored threshold is that integer, and every numeric score in [0, 1] passes.
Values slightly outside [0, 1] whose truncation lands in range (such as
-0.005) also pass. -/
theorem validate_score_iff (v : Option JVal) :
    (((validate_recipe_params .text_detection (cfgScore v)).isOk = true ↔
      ∃ q, pyAsNumber v = some q ∧ 0 ≤ pyInt (q * 100) ∧ pyInt (q * 100) ≤ 100) ∧
    ((validate_recipe_params .text_detection (cfgScore v)).toOption.map
        RecipeParams.minimum_score =
      match pyAsNumber v with
      | some q =>
        if 0 ≤ pyInt (q * 100) ∧ pyInt (q * 100) ≤ 100 then some (pyInt (q * 100))
        else none
      | none => none) ∧
    (∀ q, pyAsNumber v = some q → 0 ≤ q → q ≤ 1 →
      (validate_recipe_params .text_detection (cfgScore v)).isOk = true)) := by
  cases hv : pyAsNumber v with
  | none =>
    have hunfold : validate_recipe_params .text_detection (cfgScore v) =
        .error "Invalid minimum score parameter" := by
      simp only [validate_recipe_params, cfgScore, hv, except_bind_error]
    refine ⟨?_, ?_, ?_⟩
    · simp [hunfold, Except.isOk, Except.toBool, hv]
    · simp [hunfold, Except.toOption, hv]
    · intro q hq
      exact Option.noConfusion hq
  | some q =>
    have hunfold : validate_recipe_params .text_detection (cfgScore v) =
        if pyInt (q * 100) < 0 ∨ 100 < pyInt (q * 100) then
          .error "Minimum confidence score must be between 0 and 1"
        else
          .ok { minimum_score := pyInt (q * 100), error_handling := .log,
                orientation_correction := false, num_objects := none,
                unsafe_content_category_level := none,
                unsafe_content_categories_top_level := [],
                unsafe_content_categories_second_level := [] } := by
      simp only [validate_recipe_params, cfgScore, hv, except_bind_ok,
        (by decide : RecipeID.text_detection ≠ RecipeID.object_detection_labeling),
        (by decide : RecipeID.text_detection ≠ RecipeID.unsafe_content_moderation)]
      norm_num [pure, Except.pure, except_bind_ok]
    have hin : 0 ≤ q → q ≤ 1 → 0 ≤ pyInt (q * 100) ∧ pyInt (q * 100) ≤ 100 := by
      intro h0 h1
      have hx0 : (0 : ℚ) ≤ q * 100 := mul_nonneg h0 (by norm_num)
      have hx1 : q * 100 ≤ 100 := by nlinarith
      rw [pyInt, if_pos hx0]
      constructor
      · exact Int.floor_nonneg.mpr hx0
      · calc ⌊q * 100⌋ ≤ ⌊(100 : ℚ)⌋ := Int.floor_le_floor hx1
          _ = 100 := by norm_num
    refine ⟨?_, ?_, ?_⟩
    · rw [hunfold]
      by_cases h : pyInt (q * 100) < 0 ∨ 100 < pyInt (q * 100)
      · rw [if_pos h]
        simp only [Except.isOk, Except.toBool]
        constructor
        · intro hh
          exact absurd hh (by simp)
        · rintro ⟨q', hq', hb1, hb2⟩
          injection hq' with he
          subst he
          omega
      · rw [if_neg h]
        simp only [Except.isOk, Except.toBool]
        constructor
        · intro _
          exact ⟨q, rfl, by omega, by omega⟩
        · intro _
          trivial
    · rw [hunfold]
      by_cases h : pyInt (q * 100) < 0 ∨ 100 < pyInt (q * 100)
      · rw [if_pos h]
        have hc : ¬(0 ≤ pyInt (q * 100) ∧ pyInt (q * 100) ≤ 100) := by omega
        simp [Except.toOption, hc]
      · rw [if_neg h]
        have hc : 0 ≤ pyInt (q * 100) ∧ pyInt (q * 100) ≤ 100 := by omega
        simp [Except.toOption, hc]
    · intro q' hq' h0 h1
      injection hq' with he
      subst he
      have hb := hin h0 h1
      rw [hunfold, if_neg (by omega)]
      rfl

/-- Witness for C8: the numeric score 0.5 passes validation. -/
theorem validate_score_iff_witness :
    (validate_recipe_params .text_detection
      (cfgScore (some (.num (1/2))))).isOk = true :=
  (validate_score_iff (some (.num (1/2)))).2.2 (1/2) rfl
    (by norm_num) (by norm_num)

/-- C9 (counterexample): the entity formatter recomputes its added column
names from the current row keys on every call; applying it a second time to
an already-formatted row adds a new `_1`-suffixed column instead of writing
the same columns with the same values. -/
theorem uc_format_row_not_idempotent :
    uc_format_row [.PERSON] 0 "entity_api" "entity_api_response" .log ucExampleRow0 =
      .ok ucExampleRow1 ∧
    uc_format_row [.PERSON] 0 "entity_api" "entity_api_response" .log ucExampleRow1 =
      .ok ucExampleRow2 ∧
    getCell ucExampleRow2 "entity_api_entity_type_person_1" =
      some (.val (.arr [.str "Joe"])) ∧
    getCell ucExampleRow1 "entity_api_entity_type_person_1" = none :=
  ⟨rfl, rfl, rfl, rfl⟩


theorem odPairWrites_keys (ns ss : List String) (ls : List JVal) :
    (odPairWrites ns ss ls).map Prod.fst = odPairCols ns ss := by
  induction ns generalizing ss ls with
  | nil => cases ss <;> cases ls <;> rfl
  | cons nc ns ih =>
    cases ss with
    | nil => cases ls <;> rfl
    | cons sc ss =>
      cases ls with
      | nil => simp [odPairWrites, odPairCols, ih]
      | cons l ls => simp [odPairWrites, odPairCols, ih]

/-- C9 (amended): row formatting is idempotent for the object-detection and
text-detection formatters, whose added column names are fixed at construction
time and distinct from the raw-response column: re-applying `format_row` to
an already-formatted row (with its duplicate-free schema and unchanged raw
response) replays the same writes with the same values.  The entity formatter
recomputes its column names per row and is excluded (see its
counterexample). -/
theorem format_row_idempotent :
    (∀ (cols : ODColumns) (eh : ErrorHandling) (row row' : Row),
      (rowKeys row).Nodup →
      cols.response ∉ odWrittenCols cols →
      od_format_row cols eh row = .ok row' →
      od_format_row cols eh row' = .ok row') ∧
    (∀ (cols : TDColumns) (min : ℚ) (eh : ErrorHandling) (row row' : Row),
      (rowKeys row).Nodup →
      cols.response ≠ cols.text_list →
      cols.response ≠ cols.text_concat →
      td_format_row cols min eh row = .ok row' →
      td_format_row cols min eh row' = .ok row') := by
  constructor
  · intro cols eh row row' hnd hresp h
    cases hraw : getRowItem row cols.response with
    | error e => rw [od_format_row, hraw] at h; exact absurd h (by simp [except_bind_error])
    | ok raw =>
      rw [od_format_row, hraw, except_bind_ok] at h
      cases hjson : safe_json_loads raw eh with
      | error e => rw [hjson] at h; exact absurd h (by simp [except_bind_error])
      | ok resp =>
        rw [hjson, except_bind_ok] at h
        cases hlv : pyGet resp "Labels" (.arr []) with
        | error e => rw [hlv] at h; exact absurd h (by simp [except_bind_error])
        | ok lv =>
          rw [hlv, except_bind_ok] at h
          cases hit : pyIter lv with
          | error e => rw [hit] at h; exact absurd h (by simp [except_bind_error])
          | ok ls =>
            rw [hit, except_bind_ok] at h
            cases hsort : pySortedByConfDesc ls with
            | error e => rw [hsort] at h; exact absurd h (by simp [except_bind_error])
            | ok labels =>
              rw [hsort, except_bind_ok] at h
              have hrow' : row' = writeList row
                  ((cols.label_list, .val (.arr (labels.map (fun l => pyGetD l "Name" .null)))) ::
                    odPairWrites cols.label_name cols.label_score labels) := by
                have h2 := h
                simp only [pure, Except.pure, Except.ok.injEq] at h2
                exact h2.symm
              have hkeys : ¬ cols.response ∈
                  (((cols.label_list, Cell.val (.arr (labels.map (fun l => pyGetD l "Name" .null)))) ::
                    odPairWrites cols.label_name cols.label_score labels).map Prod.fst) := by
                simpa [odWrittenCols, odPairWrites_keys] using hresp
              have hraw' : getRowItem row' cols.response = .ok raw := by
                rw [getRowItem_ok_iff] at hraw ⊢
                rw [hrow', getCell_writeList_not_mem _ _ hkeys]
                exact hraw
              rw [od_format_row, hraw', except_bind_ok, hjson, except_bind_ok, hlv,
                except_bind_ok, hit, except_bind_ok, hsort, except_bind_ok, hrow',
                writeList_replay _ _ hnd]
              rfl
  · intro cols min eh row row' hnd hr1 hr2 h
    cases hraw : getRowItem row cols.response with
    | error e => rw [td_format_row, hraw] at h; exact absurd h (by simp [except_bind_error])
    | ok raw =>
      rw [td_format_row, hraw, except_bind_ok] at h
      cases hjson : safe_json_loads raw eh with
      | error e => rw [hjson] at h; exact absurd h (by simp [except_bind_error])
      | ok resp =>
        rw [hjson, except_bind_ok] at h
        cases hdv : pyGet resp "TextDetections" (.arr []) with
        | error e => rw [hdv] at h; exact absurd h (by simp [except_bind_error])
        | ok dv =>
          rw [hdv, except_bind_ok] at h
          cases hit : pyIter dv with
          | error e => rw [hit] at h; exact absurd h (by simp [except_bind_error])
          | ok dets =>
            rw [hit, except_bind_ok] at h
            cases hflt : pyFilter (tdKeep min) dets with
            | error e => rw [hflt] at h; exact absurd h (by simp [except_bind_error])
            | ok kept =>
              rw [hflt, except_bind_ok] at h
              by_cases hk : kept.length ≠ 0
              · rw [if_pos hk] at h
                cases hj : pyJoinSpace (kept.map (fun t => pyGetD t "DetectedText" (.str ""))) with
                | error e => rw [hj] at h; exact absurd h (by simp [except_bind_error])
                | ok joined =>
                  rw [hj, except_bind_ok] at h
                  have hrow' : row' = writeList row
                      [(cols.text_list, .val (.str "")), (cols.text_concat, .val (.str "")),
                       (cols.text_list, .val (.arr (kept.map (fun t => pyGetD t "DetectedText" (.str ""))))),
                       (cols.text_concat, .val (.str joined))] := by
                    have h2 := h
                    simp only [pure, Except.pure, Except.ok.injEq] at h2
                    exact h2.symm
                  have hkeys : ¬ cols.response ∈
                      ([(cols.text_list, Cell.val (.str "")), (cols.text_concat, Cell.val (.str "")),
                        (cols.text_list, Cell.val (.arr (kept.map (fun t => pyGetD t "DetectedText" (.str ""))))),
                        (cols.text_concat, Cell.val (.str joined))].map Prod.fst) := by
                    simp [hr1, hr2]
                  have hraw' : getRowItem row' cols.response = .ok raw := by
                    rw [getRowItem_ok_iff] at hraw ⊢
                    rw [hrow', getCell_writeList_not_mem _ _ hkeys]
                    exact hraw
                  rw [td_format_row, hraw', except_bind_ok, hjson, except_bind_ok, hdv,
                    except_bind_ok, hit, except_bind_ok, hflt, except_bind_ok, if_pos hk,
                    hj, except_bind_ok, hrow', writeList_replay _ _ hnd]
                  rfl
              · rw [if_neg hk] at h
                have hrow' : row' = writeList row
                    [(cols.text_list, .val (.str "")), (cols.text_concat, .val (.str ""))] := by
                  have h2 := h
                  simp only [pure, Except.pure, Except.ok.injEq] at h2
                  exact h2.symm
                have hkeys : ¬ cols.response ∈
                    ([(cols.text_list, Cell.val (.str "")),
                      (cols.text_concat, Cell.val (.str ""))].map Prod.fst) := by
                  simp [hr1, hr2]
                have hraw' : getRowItem row' cols.response = .ok raw := by
                  rw [getRowItem_ok_iff] at hraw ⊢
                  rw [hrow', getCell_writeList_not_mem _ _ hkeys]
                  exact hraw
                rw [td_format_row, hraw', except_bind_ok, hjson, except_bind_ok, hdv,
                  except_bind_ok, hit, except_bind_ok, hflt, except_bind_ok, if_neg hk,
                  hrow', writeList_replay _ _ hnd]
                rfl

/-- Witness for C9: re-applying the object-detection formatter to the
already-formatted example row reproduces it unchanged. -/
theorem format_row_idempotent_witness :
    od_format_row odExampleCols .log odExampleOut = .ok odExampleOut :=
  format_row_idempotent.1 odExampleCols .log odExampleRow odExampleOut
    (by decide) (by decide) rfl


theorem exists_num_of_isNum {v : JVal} (h : v.isNum = true) : ∃ q, v = .num q := by
  cases v with
  | num q => exact ⟨q, rfl⟩
  | null => exact Bool.noConfusion h
  | bool b => exact Bool.noConfusion h
  | str s => exact Bool.noConfusion h
  | arr xs => exact Bool.noConfusion h
  | obj fs => exact Bool.noConfusion h

theorem exists_of_fragConfOk {t : JVal} (h : fragConfOk t = true) :
    ∃ fs q, t = .obj fs ∧ jobjGet fs "Confidence" .null = .num q := by
  cases t with
  | obj fs =>
    simp only [fragConfOk] at h
    obtain ⟨q, hq⟩ := exists_num_of_isNum h
    exact ⟨fs, q, rfl, hq⟩
  | null => exact Bool.noConfusion h
  | bool b => exact Bool.noConfusion h
  | num q => exact Bool.noConfusion h
  | str s => exact Bool.noConfusion h
  | arr xs => exact Bool.noConfusion h

theorem geom_fields_of_fragGeomOk {t : JVal} (hg : fragGeomOk t = true) :
    ∃ gfs bfs xq yq wq hq,
      pyGetD t "Geometry" (.obj []) = .obj gfs ∧
      jobjGet gfs "BoundingBox" (.obj []) = .obj bfs ∧
      jobjGet bfs "Left" .null = .num xq ∧ jobjGet bfs "Top" .null = .num yq ∧
      jobjGet bfs "Width" .null = .num wq ∧ jobjGet bfs "Height" .null = .num hq := by
  unfold fragGeomOk at hg
  split at hg
  next gfs hG =>
    split at hg
    next bfs hB =>
      simp only [Bool.and_eq_true] at hg
      obtain ⟨⟨⟨hL, hT⟩, hW⟩, hH⟩ := hg
      obtain ⟨xq, hxq⟩ := exists_num_of_isNum hL
      obtain ⟨yq, hyq⟩ := exists_num_of_isNum hT
      obtain ⟨wq, hwq⟩ := exists_num_of_isNum hW
      obtain ⟨hq, hhq⟩ := exists_num_of_isNum hH
      exact ⟨gfs, bfs, xq, yq, wq, hq, hG, hB, hxq, hyq, hwq, hhq⟩
    next _ _ => exact Bool.noConfusion hg
  next _ _ => exact Bool.noConfusion hg

theorem td_box_draw_of_geomOk {t : JVal} (hg : fragGeomOk t = true) :
    td_box_draw (pyGetD (pyGetD t "Geometry" (.obj [])) "BoundingBox" (.obj [])) =
      .ok (boxOfD t) := by
  obtain ⟨gfs, bfs, xq, yq, wq, hq, hG, hB, hL, hT, hW, hH⟩ :=
    geom_fields_of_fragGeomOk hg
  have hpb : pyGetD (pyGetD t "Geometry" (.obj [])) "BoundingBox" (.obj []) =
      .obj bfs := by
    rw [hG]
    simp [pyGetD, hB]
  rw [hpb]
  simp only [td_box_draw, pyGet, hL, hT, hW, hH, except_bind_ok, pyFloat]
  simp only [boxOfD]
  rw [hpb]
  simp [pyGetD, hL, hT, hW, hH, JVal.toQ, pure, Except.pure]

theorem mapM_td_box_draw (l : List JVal) (hall : ∀ t ∈ l, fragGeomOk t = true) :
    (l.map (fun t => pyGetD (pyGetD t "Geometry" (.obj [])) "BoundingBox" (.obj []))).mapM
        td_box_draw = .ok (l.map boxOfD) := by
  induction l with
  | nil => rfl
  | cons t ts ih =>
    rw [List.map_cons, List.mapM_cons, td_box_draw_of_geomOk (hall t (by simp)),
      except_bind_ok, ih (fun u hu => hall u (by simp [hu])), except_bind_ok]
    rfl

theorem td_collect_boxes_eq (min : ℚ) (dets : List JVal)
    (h1 : ∀ t ∈ dets, fragConfOk t = true)
    (h2 : ∀ t ∈ dets, min ≤ confQD t → fragGeomOk t = true) :
    td_collect_boxes min dets =
      .ok ((dets.filter (fun t => decide (min ≤ confQD t))).map
        (fun t => pyGetD (pyGetD t "Geometry" (.obj [])) "BoundingBox" (.obj []))) := by
  induction dets with
  | nil => rfl
  | cons t ts ih =>
    obtain ⟨fs, q, rfl, hc⟩ := exists_of_fragConfOk (h1 t (List.mem_cons_self t ts))
    have hcq : confQD (.obj fs) = q := by simp [confQD, pyGetD, hc, JVal.toQ]
    have hrest := ih (fun u hu => h1 u (by simp [hu])) (fun u hu => h2 u (by simp [hu]))
    rw [td_collect_boxes]
    simp only [pyGet, hc, except_bind_ok, pyGe]
    by_cases hge : min ≤ q
    · have hg := h2 (.obj fs) (by simp) (by rw [hcq]; exact hge)
      obtain ⟨gfs, bfs, xq, yq, wq, hq, hG, hB, _, _, _, _⟩ :=
        geom_fields_of_fragGeomOk hg
      have hG' : jobjGet fs "Geometry" (.obj []) = .obj gfs := by
        simpa [pyGetD] using hG
      simp [hge, hG', hB, hrest, except_bind_ok, hcq, pyGetD, List.filter,
        pure, Except.pure]
    · simp [hge, hrest, hcq, List.filter]

/-- C5 (amended): for every response whose fragments carry a numeric
confidence (with drawable geometry on those at or above the threshold), the
annotation pass draws exactly one un-captioned bounding box per fragment at
or above the minimum-score threshold, in order, regardless of `ParentId` —
a superset of the fragments surviving the tabular filter, which additionally
requires `ParentId` to be absent. -/
theorem td_format_image_boxes (min : ℚ) (dets : List JVal)
    (h1 : ∀ t ∈ dets, fragConfOk t = true)
    (h2 : ∀ t ∈ dets, min ≤ confQD t → fragGeomOk t = true) :
    td_format_image min (.obj [("TextDetections", .arr dets)]) =
      .ok ((dets.filter (fun t => decide (min ≤ confQD t))).map boxOfD) ∧
    ∀ b ∈ (dets.filter (fun t => decide (min ≤ confQD t))).map boxOfD,
      b.text = "" := by
  constructor
  · have hcollect := td_collect_boxes_eq min dets h1 h2
    have hmapM := mapM_td_box_draw (dets.filter (fun t => decide (min ≤ confQD t)))
      (fun u hu => h2 u (List.mem_of_mem_filter hu)
        (by simpa using List.of_mem_filter hu))
    rw [td_format_image]
    simp only [pyGet, jobjGet, if_pos rfl, ite_true, except_bind_ok, pyIter, hcollect]
    exact hmapM
  · intro b hb
    rw [List.mem_map] at hb
    obtain ⟨u, _, rfl⟩ := hb
    rfl

/-- Witness for C5: one top-level fragment above the threshold yields exactly
its un-captioned box. -/
theorem td_format_image_boxes_witness :
    td_format_image 50 (.obj [("TextDetections", .arr [tdTopFragment])]) =
      .ok (([tdTopFragment].filter
        (fun t => decide ((50 : ℚ) ≤ confQD t))).map boxOfD) ∧
    ∀ b ∈ (([tdTopFragment].filter
        (fun t => decide ((50 : ℚ) ≤ confQD t))).map boxOfD), b.text = "" :=
  td_format_image_boxes 50 [tdTopFragment] (by decide) (by decide)

end Rekog
